import Mathlib

/-!
# Verification of the intent-mail usage-metering and credit-billing core

Shallow embedding of the billing subsystem of the `intent-mail` repository:

* `src/api/libs/config.ts` — pricing configuration and `calculateEmailCredits`
  (the CreditCalculator), the PaymentKit adapter (`hasSufficientCredits`,
  `reportUsage`), and the usage-reporting scheduler
  (`processUnreportedUsage`, `getUniqueUsersWithUnreportedUsage`,
  `reportUserUsage`, `reportUsageImmediate`);
* `src/api/services/usage.ts` — the usage ledger (`recordUsage`,
  `claimUnreportedUsage`, `markUsageReported`, `resetClaimedUsage`);
* `src/api/middlewares/creditCheck.ts` — the credit-gate middleware;
* `src/api/routes/v1/send.ts` — the send/preview/batch endpoints.

JavaScript numbers are modelled as rationals (`ℚ`); the 10-decimal rounding
`Math.round(x * 1e10) / 1e10` is modelled exactly.  SQL `NULL` in the
`usageReportStatus` column is the `unreported` constructor.  The database
table is a list of rows; a Sequelize `update` with a `where` clause is a
map over the rows guarded by the clause.
-/

/-- JavaScript `Math.round`: round half towards positive infinity. -/
def jsRound (x : ℚ) : ℤ := ⌊x + 1/2⌋

/-- Models `Math.round(x * 1e10) / 1e10` — round to 10 decimal places
(src/api/libs/config.ts line 70). -/
def roundTo10 (x : ℚ) : ℚ := (jsRound (x * 10^10) : ℚ) / 10^10

/-- The pricing block of `Config` (src/api/libs/config.ts lines 16–21).
`emailSent`, `aiInputRate`, `aiOutputRate` are the configured per-unit rates;
the config also carries `preview: 0` ("Previews are free"), recorded here for
reference although no code path reads it. -/
structure Pricing where
  emailSent : ℚ
  aiInputRate : ℚ
  aiOutputRate : ℚ
  preview : ℚ := 0
deriving DecidableEq, Repr

/-- Default rates: `EMAIL_CREDIT_RATE=0.01`, `AI_INPUT_TOKEN_RATE=0.001`,
`AI_OUTPUT_TOKEN_RATE=0.003`. -/
def defaultPricing : Pricing := { emailSent := 1/100, aiInputRate := 1/1000, aiOutputRate := 3/1000 }

/-- Embedding of `calculateEmailCredits` (src/api/libs/config.ts lines 49–71): base email
cost plus per-1K-token AI costs, each token term guarded by a `> 0` test,
rounded to 10 decimal places.  Counts are the explicit numbers the callers
pass (the TypeScript destructuring defaults only apply to `undefined`, which
callers in this repository never pass to this function through `recordUsage`
or the reporting path; the `undefined`/`0` coercion of `recordUsage` itself
is modelled separately in `recordUsage` below). -/
def calculateEmailCredits (p : Pricing) (emailCount aiInputTokens aiOutputTokens : ℕ) : ℚ :=
  let base : ℚ := (emailCount : ℚ) * p.emailSent
  let inCost : ℚ := if 0 < aiInputTokens then ((aiInputTokens : ℚ) / 1000) * p.aiInputRate else 0
  let outCost : ℚ := if 0 < aiOutputTokens then ((aiOutputTokens : ℚ) / 1000) * p.aiOutputRate else 0
  roundTo10 (base + inCost + outCost)

/-- Evaluation rule for `roundTo10` at a point whose rounded value is `n`. -/
theorem roundTo10_eval (x : ℚ) (n : ℤ) (h1 : (n : ℚ) ≤ x * 10 ^ 10 + 1/2)
    (h2 : x * 10 ^ 10 + 1/2 < n + 1) : roundTo10 x = (n : ℚ) / 10 ^ 10 := by
  unfold roundTo10 jsRound
  rw [Int.floor_eq_iff.mpr ⟨h1, h2⟩]

/-- The `type` column of a usage row (src/api/services/usage.ts line 24). -/
inductive UsageType
  | email_sent
  | ai_generation
  | preview
deriving DecidableEq, Repr

/-- The `usageReportStatus` column (src/api/services/usage.ts line 25):
SQL `NULL` (here `unreported`), `'counted'` or `'reported'`. -/
inductive ReportStatus
  | unreported
  | counted
  | reported
deriving DecidableEq, Repr

/-- One row of the `usage` table (src/api/services/usage.ts lines 27–42).
Ids are opaque; timestamps are abstract instants ordered by `≤`. -/
structure UsageRec where
  id : ℕ
  userDid : String
  type : UsageType
  brand : String
  intent : String
  emailCount : ℕ
  aiInputTokens : ℕ
  aiOutputTokens : ℕ
  usedCredits : ℚ
  usageReportStatus : ReportStatus
  createdAt : ℕ
deriving DecidableEq, Repr

/-- The `usage` table: a list of rows. -/
abbrev Db := List UsageRec

/-- JavaScript `x || d` on an optional number: `undefined` and `0` are both
falsy, so both yield the default. -/
def jsOr (x : Option ℕ) (d : ℕ) : ℕ :=
  match x with
  | none => d
  | some n => if n = 0 then d else n

/-- The argument object of `recordUsage` (src/api/services/usage.ts
lines 146–156); `emailCount`, `aiInputTokens`, `aiOutputTokens` are the
optional fields. -/
structure RecordInput where
  userDid : String
  type : UsageType
  brand : String
  intent : String
  emailCount : Option ℕ := none
  aiInputTokens : Option ℕ := none
  aiOutputTokens : Option ℕ := none
deriving DecidableEq, Repr

/-- Embedding of `recordUsage` (src/api/services/usage.ts lines 146–181): computes
`usedCredits` via `calculateEmailCredits` with `data.emailCount || 1`,
`data.aiInputTokens || 0`, `data.aiOutputTokens || 0`, and inserts a row
with `usageReportStatus = null` and
`emailCount = data.emailCount || (data.type === 'email_sent' ? 1 : 0)`. -/
def recordUsage (p : Pricing) (data : RecordInput) (newId : ℕ) (now : ℕ) : UsageRec :=
  let credits := calculateEmailCredits p
    (jsOr data.emailCount 1) (jsOr data.aiInputTokens 0) (jsOr data.aiOutputTokens 0)
  { id := newId
    userDid := data.userDid
    type := data.type
    brand := data.brand
    intent := data.intent
    emailCount := jsOr data.emailCount (if data.type = .email_sent then 1 else 0)
    aiInputTokens := jsOr data.aiInputTokens 0
    aiOutputTokens := jsOr data.aiOutputTokens 0
    usedCredits := credits
    usageReportStatus := .unreported
    createdAt := now }

/-- C9: the credit computation matches the spec formula with the 10-decimal
rounding; a zero operation costs zero; with the email rate at 0.01, one
hundred emails cost exactly 1 credit.  (Purity — same inputs, same output —
is inherent: `calculateEmailCredits` is a function of its arguments and the
configured rates only.) -/
theorem calculateEmailCredits_spec :
    (∀ (p : Pricing) (e i o : ℕ),
      calculateEmailCredits p e i o
        = roundTo10 ((e : ℚ) * p.emailSent + ((i : ℚ) / 1000) * p.aiInputRate
            + ((o : ℚ) / 1000) * p.aiOutputRate))
    ∧ (∀ p : Pricing, calculateEmailCredits p 0 0 0 = 0)
    ∧ (∀ p : Pricing, p.emailSent = 1/100 → calculateEmailCredits p 100 0 0 = 1) := by
  have hguard : ∀ (n : ℕ) (r : ℚ),
      (if 0 < n then ((n : ℚ) / 1000) * r else 0) = ((n : ℚ) / 1000) * r := by
    intro n r
    by_cases hn : 0 < n
    · rw [if_pos hn]
    · rw [if_neg hn]
      obtain rfl : n = 0 := Nat.eq_zero_of_not_pos hn
      norm_num
  refine ⟨?_, ?_, ?_⟩
  · intro p e i o
    simp only [calculateEmailCredits, hguard]
  · intro p
    simp only [calculateEmailCredits]
    norm_num
    rw [roundTo10_eval 0 0 (by norm_num) (by norm_num)]
    norm_num
  · intro p hp
    simp only [calculateEmailCredits, hp]
    norm_num
    rw [roundTo10_eval 1 (10 ^ 10) (by norm_num) (by norm_num)]
    norm_num

/-- C9 witness: the conjunct with a hypothesis, evaluated at the default
pricing, whose email rate is 0.01. -/
theorem calculateEmailCredits_spec_witness :
    calculateEmailCredits defaultPricing 100 0 0 = 1 :=
  calculateEmailCredits_spec.2.2 defaultPricing rfl

/-!
## The usage ledger

`claimUnreportedUsage`, `markUsageReported` and `resetClaimedUsage`
(src/api/services/usage.ts lines 292–329) all mutate `usageReportStatus`
through the same Sequelize pattern
`Usage.update({usageReportStatus: post}, {where: {id: ids, usageReportStatus: pre}})`,
embedded as `updateStatusWhere`.  The claim operation first runs a
`findAll` over the unreported rows of the owner, ordered by `createdAt`
ascending and limited to the batch size (`claimSelect`), then issues the
conditional update for the ids it read — and returns the rows of the
initial read, not the rows the update actually flipped.
-/

/-- Insert a row into a list sorted by `createdAt` (ascending). -/
def insertByCreatedAt (r : UsageRec) : List UsageRec → List UsageRec
  | [] => [r]
  | x :: xs => if r.createdAt < x.createdAt then r :: x :: xs else x :: insertByCreatedAt r xs

/-- Sort rows by `createdAt` ascending — the `order: [['createdAt', 'ASC']]`
clause of the claim query. -/
def sortByCreatedAt : List UsageRec → List UsageRec
  | [] => []
  | x :: xs => insertByCreatedAt x (sortByCreatedAt xs)

/-- The read phase of `claimUnreportedUsage` (src/api/services/usage.ts
lines 297–304): `findAll` of the owner's rows with `usageReportStatus`
`NULL`, oldest first, limited to `batchSize`. -/
def claimSelect (db : Db) (userDid : String) (batchSize : ℕ) : List UsageRec :=
  (sortByCreatedAt (db.filter fun r =>
    decide (r.userDid = userDid ∧ r.usageReportStatus = .unreported))).take batchSize

/-- Sequelize `Usage.update({usageReportStatus: post}, {where: {id: ids,
usageReportStatus: pre}})`: flip exactly the rows whose id is listed and
whose status still equals `pre`. -/
def updateStatusWhere (ids : List ℕ) (pre post : ReportStatus) (db : Db) : Db :=
  db.map fun r =>
    if r.id ∈ ids ∧ r.usageReportStatus = pre then
      { r with usageReportStatus := post }
    else r

/-- Embedding of `claimUnreportedUsage` (src/api/services/usage.ts lines 292–315): read
the unreported batch, conditionally flip those ids `NULL → 'counted'`, and
return the rows of the read (the source returns `records`, captured before
the update).  Result: (returned batch, table afterwards). -/
def claimUnreportedUsage (db : Db) (userDid : String) (batchSize : ℕ) :
    List UsageRec × Db :=
  let records := claimSelect db userDid batchSize
  if records.isEmpty then ([], db)
  else (records, updateStatusWhere (records.map UsageRec.id) .unreported .counted db)

/-- Embedding of `markUsageReported` (src/api/services/usage.ts lines 320–322):
`'counted' → 'reported'` for the listed ids. -/
def markUsageReported (db : Db) (ids : List ℕ) : Db :=
  updateStatusWhere ids .counted .reported db

/-- Embedding of `resetClaimedUsage` (src/api/services/usage.ts lines 327–329):
`'counted' → NULL` for the listed ids. -/
def resetClaimedUsage (db : Db) (ids : List ℕ) : Db :=
  updateStatusWhere ids .counted .unreported db

/-- Two concurrent `claimUnreportedUsage(userDid, batchSize)` calls A and B
interleaved as read-A, read-B, update-A, update-B — each call's own two
phases in program order, which the source in no way forbids (the read and
the update are two separate awaited queries, not one transaction).  Result:
(batch returned by A, batch returned by B, table afterwards). -/
def claimTwiceInterleaved (db : Db) (userDid : String) (batchSize : ℕ) :
    List UsageRec × List UsageRec × Db :=
  let recordsA := claimSelect db userDid batchSize
  let recordsB := claimSelect db userDid batchSize
  let db1 := if recordsA.isEmpty then db
    else updateStatusWhere (recordsA.map UsageRec.id) .unreported .counted db
  let db2 := if recordsB.isEmpty then db1
    else updateStatusWhere (recordsB.map UsageRec.id) .unreported .counted db1
  (recordsA, recordsB, db2)

/-- A concrete recorded usage row: one sent email for owner `u1`, no AI
tokens, unreported. -/
def ev1 : UsageRec :=
  { id := 1, userDid := "u1", type := .email_sent, brand := "b", intent := "welcome"
    emailCount := 1, aiInputTokens := 0, aiOutputTokens := 0, usedCredits := 1/100
    usageReportStatus := .unreported, createdAt := 0 }

/-- C1: the claim operation is not atomic.  Over a table holding the single
unreported event `ev1` (id 1) of owner `u1`, the interleaving read-A,
read-B, update-A, update-B of two concurrent `claimUnreportedUsage("u1",
100)` calls makes BOTH calls return event 1: the batches are `[1]` and
`[1]`, not disjoint.  The second call's conditional update flips nothing
(the row is already `'counted'`), but the call still returns the rows of
its pre-update read. -/
theorem claimUnreportedUsage_double_claim :
    (claimTwiceInterleaved [ev1] "u1" 100).1.map UsageRec.id = [1]
    ∧ (claimTwiceInterleaved [ev1] "u1" 100).2.1.map UsageRec.id = [1] :=
  ⟨rfl, rfl⟩

/-!
## Status transitions (C6)
-/

/-- The transitions the spec allows: unchanged, `unreported→claimed`
(`NULL → 'counted'`), `claimed→reported`, or the rollback
`claimed→unreported`. -/
def legalTransition (r r' : UsageRec) : Prop :=
  r'.usageReportStatus = r.usageReportStatus
  ∨ (r.usageReportStatus = .unreported ∧ r'.usageReportStatus = .counted)
  ∨ (r.usageReportStatus = .counted ∧ r'.usageReportStatus = .reported)
  ∨ (r.usageReportStatus = .counted ∧ r'.usageReportStatus = .unreported)

/-- The three status-mutating ledger operations. -/
inductive LedgerOp
  | claim (userDid : String) (batchSize : ℕ)
  | mark (ids : List ℕ)
  | reset (ids : List ℕ)

/-- The table after one ledger operation. -/
def applyOp (db : Db) : LedgerOp → Db
  | .claim u n => (claimUnreportedUsage db u n).2
  | .mark ids => markUsageReported db ids
  | .reset ids => resetClaimedUsage db ids

/-- A mapped table is pointwise related to the original. -/
theorem forall₂_map_self {α : Type} (P : α → α → Prop) (f : α → α) (l : List α)
    (h : ∀ x ∈ l, P x (f x)) : List.Forall₂ P l (l.map f) := by
  induction l with
  | nil => exact List.Forall₂.nil
  | cons a t ih =>
      exact List.Forall₂.cons (h a (by simp)) (ih fun x hx => h x (by simp [hx]))

/-- Each row is either untouched by `updateStatusWhere` or flipped from
`pre` to `post`. -/
theorem updateStatusWhere_pointwise (ids : List ℕ) (pre post : ReportStatus) (db : Db) :
    List.Forall₂ (fun r r' => r' = r
        ∨ (r.usageReportStatus = pre ∧ r' = { r with usageReportStatus := post }))
      db (updateStatusWhere ids pre post db) := by
  unfold updateStatusWhere
  apply forall₂_map_self
  intro x _
  by_cases h : x.id ∈ ids ∧ x.usageReportStatus = pre
  · exact Or.inr ⟨h.2, by rw [if_pos h]⟩
  · exact Or.inl (by rw [if_neg h])

/-- The untouched table is pointwise related to itself by any reflexive-ish
property of the form used below. -/
theorem forall₂_refl_of {α : Type} (P : α → α → Prop) (l : List α)
    (h : ∀ x ∈ l, P x x) : List.Forall₂ P l l :=
  List.forall₂_same.mpr h

/-- C6: every ledger operation moves each row's `reportStatus` only along
`unreported→claimed` (claim), `claimed→reported` (markReported) or
`claimed→unreported` (resetClaimed); a `reported` row is never changed by
any operation; and `markReported` on a row that is still `unreported`
leaves that row unchanged. -/
theorem usage_status_monotonic :
    (∀ (db : Db) (op : LedgerOp),
      List.Forall₂ (fun r r' => legalTransition r r'
          ∧ (r.usageReportStatus = .reported → r' = r))
        db (applyOp db op))
    ∧ (∀ (db : Db) (ids : List ℕ),
      List.Forall₂ (fun r r' => r.usageReportStatus = .unreported → r' = r)
        db (markUsageReported db ids)) := by
  have key : ∀ (db : Db) (ids : List ℕ) (pre post : ReportStatus),
      ((pre = .unreported ∧ post = .counted) ∨ (pre = .counted ∧ post = .reported)
        ∨ (pre = .counted ∧ post = .unreported)) →
      List.Forall₂ (fun r r' => legalTransition r r'
          ∧ (r.usageReportStatus = .reported → r' = r))
        db (updateStatusWhere ids pre post db) := by
    intro db ids pre post hok
    refine (updateStatusWhere_pointwise ids pre post db).imp ?_
    intro r r' hr
    rcases hr with heq | ⟨hpre, heq⟩
    · exact ⟨Or.inl (by rw [heq]), fun _ => heq⟩
    · constructor
      · rcases hok with ⟨h1, h2⟩ | ⟨h1, h2⟩ | ⟨h1, h2⟩
        · exact Or.inr (Or.inl ⟨h1 ▸ hpre, by rw [heq, h2]⟩)
        · exact Or.inr (Or.inr (Or.inl ⟨h1 ▸ hpre, by rw [heq, h2]⟩))
        · exact Or.inr (Or.inr (Or.inr ⟨h1 ▸ hpre, by rw [heq, h2]⟩))
      · intro hrep
        rcases hok with ⟨h1, _⟩ | ⟨h1, _⟩ | ⟨h1, _⟩ <;>
          · rw [h1] at hpre
            rw [hpre] at hrep
            cases hrep
  constructor
  · intro db op
    cases op with
    | claim u n =>
        show List.Forall₂ _ db (claimUnreportedUsage db u n).2
        unfold claimUnreportedUsage
        by_cases h : (claimSelect db u n).isEmpty
        · simp only [h, if_true]
          exact forall₂_refl_of _ db fun x _ => ⟨Or.inl rfl, fun _ => rfl⟩
        · simp only [h, if_false]
          exact key db _ _ _ (Or.inl ⟨rfl, rfl⟩)
    | mark ids => exact key db ids _ _ (Or.inr (Or.inl ⟨rfl, rfl⟩))
    | reset ids => exact key db ids _ _ (Or.inr (Or.inr ⟨rfl, rfl⟩))
  · intro db ids
    refine (updateStatusWhere_pointwise ids .counted .reported db).imp ?_
    intro r r' hr hunrep
    rcases hr with heq | ⟨hpre, _⟩
    · exact heq
    · rw [hunrep] at hpre
      cases hpre

/-- C6 witness: the transition property evaluated at a one-row table and a
`markReported` call. -/
theorem usage_status_monotonic_witness :
    List.Forall₂ (fun r r' => legalTransition r r'
        ∧ (r.usageReportStatus = .reported → r' = r))
      [ev1] (applyOp [ev1] (.mark [1])) :=
  usage_status_monotonic.1 [ev1] (.mark [1])

/-!
## The PaymentKit adapter

Embeds `getCreditBalance`, `hasSufficientCredits` and the meter-event
payload of `reportUsage` (src/api/libs/config.ts lines 204–294 of the
concatenated libs, i.e. `payment.ts`), and the credit-gate middleware
(src/api/middlewares/creditCheck.ts).  The provider itself is a boundary:
its answer to the balance query is an input, as is the payment-enabled
flag; `Infinity` in the fail-open result is the top element of
`WithTop ℚ`.
-/

/-- A credit-grant summary from the provider. -/
structure Balance where
  available : ℚ
  pending : ℚ
  total : ℚ
deriving DecidableEq, Repr

/-- Embedding of `getCreditBalance` (payment.ts): returns `null` when PaymentKit is not
enabled, otherwise whatever the provider lookup produced (itself `null` on
provider errors). -/
def getCreditBalance (paymentEnabled : Bool) (provider : Option Balance) : Option Balance :=
  if paymentEnabled then provider else none

/-- The result object of `hasSufficientCredits`. -/
structure SufficiencyResult where
  sufficient : Bool
  available : WithTop ℚ
  required : ℚ
  shortfall : ℚ

/-- Embedding of `hasSufficientCredits` (payment.ts lines 234–262): a `null` balance —
in particular, payment disabled — yields the fail-open answer
`{sufficient: true, available: Infinity, shortfall: 0}`; otherwise
sufficiency is `available >= required` and the shortfall is the gap. -/
def hasSufficientCredits (paymentEnabled : Bool) (provider : Option Balance)
    (requiredCredits : ℚ) : SufficiencyResult :=
  match getCreditBalance paymentEnabled provider with
  | none =>
      { sufficient := true, available := ⊤, required := requiredCredits, shortfall := 0 }
  | some b =>
      { sufficient := decide (requiredCredits ≤ b.available)
        available := (b.available : WithTop ℚ)
        required := requiredCredits
        shortfall := if requiredCredits ≤ b.available then 0 else requiredCredits - b.available }

/-- Outcome of the credit-gate middleware: pass the request on, reject as
unauthenticated (401), or reject with the 402 insufficient-credits
payload. -/
inductive GateOutcome
  | next
  | unauthorized
  | paymentRequired (required : ℚ) (available : WithTop ℚ) (shortfall : ℚ)

/-- Embedding of `creditCheck` (src/api/middlewares/creditCheck.ts lines 56–107): skip
when payment is disabled, skip previews when configured, 401 without a
user, then 402 exactly when `hasSufficientCredits` denies.  (The catch-all
that fails open on thrown errors is not reachable in this pure model.) -/
def creditCheck (paymentEnabled : Bool) (skipForPreview : Bool) (pathIncludesPreview : Bool)
    (user : Option String) (provider : Option Balance) (estimatedCredits : ℚ) : GateOutcome :=
  if paymentEnabled = false then .next
  else if skipForPreview && pathIncludesPreview then .next
  else
    match user with
    | none => .unauthorized
    | some _ =>
        let result := hasSufficientCredits paymentEnabled provider estimatedCredits
        if result.sufficient then .next
        else .paymentRequired result.required result.available result.shortfall

/-- C8: with the payment gateway disabled, `hasSufficientCredits` answers
sufficient with zero shortfall for every owner and required amount, and the
credit-gate middleware always passes the request on — it never produces the
402 insufficient-credits response. -/
theorem gateway_disabled_fail_open :
    (∀ (provider : Option Balance) (required : ℚ),
      (hasSufficientCredits false provider required).sufficient = true
      ∧ (hasSufficientCredits false provider required).shortfall = 0)
    ∧ (∀ (skipPrev pathPrev : Bool) (user : Option String)
        (provider : Option Balance) (est : ℚ),
      creditCheck false skipPrev pathPrev user provider est = GateOutcome.next) :=
  ⟨fun _ _ => ⟨rfl, rfl⟩, fun _ _ _ _ _ => rfl⟩

/-- The meter event `reportUsage` sends to the provider (payment.ts
lines 267–294): event name `email_usage`, the credits as value, the spread
metadata, `identifier: ek_${Date.now()}_${Math.random()...}` and a seconds
timestamp.  `nowMs` is the invocation's `Date.now()` and `rand` the
random base-36 suffix drawn by that invocation. -/
structure MeterEvent where
  eventName : String
  customerId : String
  value : ℚ
  metadata : List (String × String)
  identifier : String
  timestamp : ℕ

/-- Builds the meter event of one `reportUsage` invocation. -/
def buildMeterEvent (customerId : String) (creditsUsed : ℚ)
    (metadata : List (String × String)) (nowMs : ℕ) (rand : String) : MeterEvent :=
  { eventName := "email_usage"
    customerId := customerId
    value := creditsUsed
    metadata := metadata
    identifier := "ek_" ++ toString nowMs ++ "_" ++ rand
    timestamp := nowMs / 1000 }

/-- C7: the idempotency identifier is NOT determined by the report it
describes.  Two invocations carrying the identical report (same owner,
credits, metadata) at different wall-clock instants produce different
identifiers; conversely the identifier ignores the report content entirely
— it is a function of the invocation's time and randomness alone. -/
theorem reportUsage_identifier_not_per_report :
    ((buildMeterEvent "u1" (1/100) [] 1000 "r9").identifier
      ≠ (buildMeterEvent "u1" (1/100) [] 2000 "r9").identifier)
    ∧ (∀ (c c' : String) (v v' : ℚ) (m m' : List (String × String))
        (nowMs : ℕ) (rand : String),
      (buildMeterEvent c v m nowMs rand).identifier
        = (buildMeterEvent c' v' m' nowMs rand).identifier) :=
  ⟨by decide, fun _ _ _ _ _ _ _ _ => rfl⟩

/-!
## The usage-reporting scheduler

Embeds `reportUserUsage`, `getUniqueUsersWithUnreportedUsage` and
`processUnreportedUsage` (src/api/libs/config.ts lines 424–512 of the
concatenated libs, i.e. `usageReporting.ts`).  The gateway's verdict on
one report is a boundary input `gatewayOk`.  The result records, besides
the table, the total handed to the gateway (if a report was attempted)
and the id lists passed to `markUsageReported` and `resetClaimedUsage`.
-/

/-- What one `reportUserUsage(userDid)` cycle did. -/
structure CycleResult where
  db : Db
  reportedTotal : Option ℚ
  markedReported : List ℕ
  resetClaimed : List ℕ

/-- Embedding of `reportUserUsage` (usageReporting.ts lines 470–512): claim a batch of
100, and if it is non-empty, recompute each record's credits from its
counts via `calculateEmailCredits` at today's rates (NOT the stored
`usedCredits`), report the sum, and on success mark the ids reported.  On
failure the source only logs — the records stay `'counted'` and no ledger
call is made; `resetClaimedUsage` is invoked on no path. -/
def reportUserUsage (p : Pricing) (db : Db) (userDid : String) (gatewayOk : Bool) :
    CycleResult :=
  let claim := claimUnreportedUsage db userDid 100
  let records := claim.1
  let db1 := claim.2
  if records.isEmpty then
    { db := db1, reportedTotal := none, markedReported := [], resetClaimed := [] }
  else
    let totalCredits := (records.map fun r =>
      calculateEmailCredits p r.emailCount r.aiInputTokens r.aiOutputTokens).sum
    let recordIds := records.map UsageRec.id
    if gatewayOk then
      { db := markUsageReported db1 recordIds, reportedTotal := some totalCredits
        markedReported := recordIds, resetClaimed := [] }
    else
      { db := db1, reportedTotal := some totalCredits
        markedReported := [], resetClaimed := [] }

/-- Embedding of `getUniqueUsersWithUnreportedUsage` (usageReporting.ts lines 448–465):
claims a 1-record batch for the literal owner id `__peek__` (discarding
the result) and returns the accumulated DID set — which no statement ever
populates, so the returned list is always empty.  Result: (owner list,
table after the peek). -/
def getUniqueUsersWithUnreportedUsage (db : Db) : List String × Db :=
  (([] : List String), (claimUnreportedUsage db "__peek__" 1).2)

/-- Embedding of `processUnreportedUsage` (usageReporting.ts lines 424–443): one
scheduler tick — collect the owners, then run `reportUserUsage` for each
in turn. -/
def processUnreportedUsage (p : Pricing) (db : Db) (gatewayOk : Bool) : Db :=
  let peeked := getUniqueUsersWithUnreportedUsage db
  peeked.1.foldl (fun d u => (reportUserUsage p d u gatewayOk).db) peeked.2

/-- C2: no rollback on reporting failure.  `reportUserUsage` passes ids to
`resetClaimedUsage` on no input whatsoever; concretely, after a cycle for
owner `u1` over the single unreported event `ev1` in which the gateway
report fails, the event sits at `'counted'` and the next
`claimUnreportedUsage("u1", 100)` returns the empty batch — the event is
never claimable again, instead of being reset to unreported. -/
theorem reportUserUsage_no_rollback :
    (∀ (p : Pricing) (db : Db) (u : String) (g : Bool),
      (reportUserUsage p db u g).resetClaimed = [])
    ∧ ((reportUserUsage defaultPricing [ev1] "u1" false).db.map
        UsageRec.usageReportStatus = [ReportStatus.counted])
    ∧ (claimUnreportedUsage (reportUserUsage defaultPricing [ev1] "u1" false).db
        "u1" 100).1 = [] := by
  refine ⟨?_, rfl, rfl⟩
  intro p db u g
  simp only [reportUserUsage]
  split
  · rfl
  · split
    · rfl
    · rfl

/-- C3: the scheduler tick processes no owner.  The owner list of
`getUniqueUsersWithUnreportedUsage` is empty for every table, so one tick's
only effect is the bogus claim for the literal owner `__peek__`; over a
table holding the unreported event `ev1` of owner `u1`, a tick with a
fully healthy gateway leaves the table untouched — `u1`'s event is never
claimed, reported or marked. -/
theorem processUnreportedUsage_skips_owners :
    (∀ db : Db, (getUniqueUsersWithUnreportedUsage db).1 = [])
    ∧ (∀ (p : Pricing) (db : Db) (g : Bool),
      processUnreportedUsage p db g = (claimUnreportedUsage db "__peek__" 1).2)
    ∧ processUnreportedUsage defaultPricing [ev1] true = [ev1] :=
  ⟨fun _ => rfl, fun _ _ _ => rfl, rfl⟩

/-!
## Charges fixed at record time? (C4) and free previews? (C5)
-/

/-- One email credited at the default rate costs 0.01. -/
theorem calculateEmailCredits_emails_only (p : Pricing) (e : ℕ) :
    calculateEmailCredits p e 0 0 = roundTo10 ((e : ℚ) * p.emailSent) := by
  simp [calculateEmailCredits]

/-- Concrete evaluation: one plain email at the default 0.01 rate. -/
theorem calc_one_email_default : calculateEmailCredits defaultPricing 1 0 0 = 1/100 := by
  rw [calculateEmailCredits_emails_only]
  rw [show ((1 : ℕ) : ℚ) * defaultPricing.emailSent = 1/100 by norm_num [defaultPricing]]
  rw [roundTo10_eval (1/100) (10 ^ 8) (by norm_num) (by norm_num)]
  norm_num

/-- The default rates with the email rate doubled to 0.02 — the
configuration after an operator raises `EMAIL_CREDIT_RATE`. -/
def doubledPricing : Pricing :=
  { emailSent := 1/50, aiInputRate := 1/1000, aiOutputRate := 3/1000 }

/-- Concrete evaluation: one plain email at the doubled 0.02 rate. -/
theorem calc_one_email_doubled : calculateEmailCredits doubledPricing 1 0 0 = 1/50 := by
  rw [calculateEmailCredits_emails_only]
  rw [show ((1 : ℕ) : ℚ) * doubledPricing.emailSent = 1/50 by norm_num [doubledPricing]]
  rw [roundTo10_eval (1/50) (2 * 10 ^ 8) (by norm_num) (by norm_num)]
  norm_num

/-- The record call of the single-send route (src/api/routes/v1/send.ts
lines 60–73): one sent email, here with no AI tokens. -/
def emailInput1 : RecordInput :=
  { userDid := "u1", type := .email_sent, brand := "b", intent := "welcome"
    emailCount := some 1, aiInputTokens := some 0, aiOutputTokens := some 0 }

/-- A successful single-record reporting cycle hands the gateway the
recomputed credits of that record. -/
theorem reportUserUsage_single_success (p : Pricing) (db : Db) (u : String) (r : UsageRec)
    (h : (claimUnreportedUsage db u 100).1 = [r]) :
    (reportUserUsage p db u true).reportedTotal
      = some (calculateEmailCredits p r.emailCount r.aiInputTokens r.aiOutputTokens) := by
  simp only [reportUserUsage, h]
  simp

/-- C4: the total handed to the gateway is recomputed from the records'
counts at reporting-time rates, not taken from the stored `usedCredits`.
An event recorded as one email at the default 0.01 rate stores
`usedCredits = 0.01`; after the email rate doubles to 0.02, the reporting
cycle that claims it reports 0.02 — the rate change alters the reported
charge for the already-recorded event. -/
theorem reportUserUsage_total_recomputed :
    (recordUsage defaultPricing emailInput1 1 0).usedCredits = 1/100
    ∧ (reportUserUsage doubledPricing [recordUsage defaultPricing emailInput1 1 0]
        "u1" true).reportedTotal = some (1/50)
    ∧ ((1 : ℚ)/50 ≠ 1/100) := by
  refine ⟨?_, ?_, by norm_num⟩
  · show calculateEmailCredits defaultPricing 1 0 0 = 1/100
    exact calc_one_email_default
  · rw [reportUserUsage_single_success doubledPricing
      [recordUsage defaultPricing emailInput1 1 0] "u1"
      (recordUsage defaultPricing emailInput1 1 0) rfl]
    show some (calculateEmailCredits doubledPricing 1 0 0) = some (1/50)
    rw [calc_one_email_doubled]

/-- The record call of the preview route (src/api/routes/v1/send.ts
lines 123–135): `type: 'preview'`, `emailCount: 0` and the generation's
token counts — here a preview that consumed no AI tokens. -/
def previewInput : RecordInput :=
  { userDid := "u1", type := .preview, brand := "b", intent := "welcome"
    emailCount := some 0, aiInputTokens := some 0, aiOutputTokens := some 0 }

/-- C5: a preview is charged.  Recording the preview route's call (owner
`u1`, `emailCount: 0`, no tokens) stores `usedCredits = 0.01`, not 0: the
`data.emailCount || 1` coercion in `recordUsage` turns the explicit 0 into
1 before pricing, while the stored `emailCount` stays 0. -/
theorem preview_record_is_charged :
    (recordUsage defaultPricing previewInput 1 0).type = UsageType.preview
    ∧ (recordUsage defaultPricing previewInput 1 0).emailCount = 0
    ∧ (recordUsage defaultPricing previewInput 1 0).usedCredits = 1/100
    ∧ ((1 : ℚ)/100 ≠ 0) := by
  refine ⟨rfl, rfl, ?_, by norm_num⟩
  show calculateEmailCredits defaultPricing 1 0 0 = 1/100
  exact calc_one_email_default

/-!
## The batch-send endpoint (C10)

Embeds the validation and processing order of `POST /api/v1/send/batch`
(src/api/routes/v1/send.ts lines 226–311): missing-field check, the
100-recipient limit, then the per-recipient send loop and the single
`recordUsage` call.  A recipient is its address; `sendOk` is the boundary
verdict of `emailService.send` per recipient.  The handler result is the
HTTP outcome together with the list of recipients actually handed to the
email service and whether `recordUsage` was called.
-/

/-- JavaScript truthiness of an optional string: `undefined` and the empty
string are falsy. -/
def jsTruthyStr : Option String → Bool
  | none => false
  | some s => !(s == "")

/-- HTTP outcome of the batch endpoint. -/
inductive BatchOutcome
  | badRequestMissing
  | badRequestTooMany
  | ok (sent failed : ℕ)
deriving DecidableEq, Repr

/-- The batch handler: 400 when `brand`, `intent` or the recipients array
is missing; 400 "Too many recipients" when more than 100 recipients —
returned before any send or usage record; otherwise every recipient is
sent and usage is recorded once when an authenticated user exists and at
least one send succeeded. -/
def sendBatchHandler (brand intent : Option String) (recipients : Option (List String))
    (sendOk : String → Bool) (user : Option String) :
    BatchOutcome × List String × Bool :=
  if !(jsTruthyStr brand) || !(jsTruthyStr intent) || recipients.isNone then
    (.badRequestMissing, [], false)
  else
    match recipients with
    | none => (.badRequestMissing, [], false)
    | some rs =>
      if rs.length > 100 then
        (.badRequestTooMany, [], false)
      else
        let successCount := (rs.filter sendOk).length
        (.ok successCount (rs.length - successCount), rs,
          user.isSome && decide (0 < successCount))

/-- C10: a batch request with more than 100 recipients is rejected with the
"Too many recipients" 400 before any email is sent or usage recorded, and
a request with at most 100 recipients is never rejected by this limit. -/
theorem sendBatch_recipient_limit :
    ∀ (brand intent : Option String) (rs : List String)
      (sendOk : String → Bool) (user : Option String),
      jsTruthyStr brand = true → jsTruthyStr intent = true →
      ((rs.length > 100 →
        sendBatchHandler brand intent (some rs) sendOk user
          = (.badRequestTooMany, [], false))
      ∧ (rs.length ≤ 100 →
        (sendBatchHandler brand intent (some rs) sendOk user).1
          ≠ BatchOutcome.badRequestTooMany)) := by
  intro brand intent rs sendOk user hb hi
  constructor
  · intro hlen
    simp [sendBatchHandler, hb, hi, hlen]
  · intro hlen
    have : ¬ rs.length > 100 := by omega
    simp [sendBatchHandler, hb, hi, this]

/-- C10 witness: 101 recipients are rejected as too many; a single
recipient is not. -/
theorem sendBatch_recipient_limit_witness :
    sendBatchHandler (some "b") (some "i") (some (List.replicate 101 "a"))
      (fun _ => true) (some "u") = (.badRequestTooMany, [], false)
    ∧ (sendBatchHandler (some "b") (some "i") (some ["a"])
        (fun _ => true) (some "u")).1 ≠ BatchOutcome.badRequestTooMany :=
  ⟨(sendBatch_recipient_limit (some "b") (some "i") (List.replicate 101 "a")
      (fun _ => true) (some "u") rfl rfl).1 (by simp),
   (sendBatch_recipient_limit (some "b") (some "i") ["a"]
      (fun _ => true) (some "u") rfl rfl).2 (by simp)⟩
